import Mathlib

/-!
Verification development for the `backgen` procedural background generator.

The Rust sources under `src/` are shallowly embedded below:

* `color.rs`   -> `Backgen.Color` and its operations
* `pos.rs`     -> `Backgen.Pos` and its operations
* `svg.rs`     -> `Backgen.Data`, `Backgen.Path`, `Backgen.Document`, rendering
                  and the save-extension dispatch
* `deserializer.rs` -> `Backgen.MetaConfig` and `pick_cfg` with its helpers
* `cfg.rs`     -> `Backgen.SceneCfg`, `choose_color`, `Pattern`, `Tiling`,
                  `make_tiling`
* `gen_image.rs` -> `Backgen.generate_images_model`

`chooser.rs`, `frame.rs`, `salt.rs`, `scene.rs`, `tesselate.rs` and `paint.rs`
are declared in `lib.rs` but their sources are not available; those parts are
modelled from the spec and are marked as such in their doc comments.

Machine floating point (`f64`) is embedded as `ℚ`; `usize`/`u64` as `Nat`
(with explicit wrap-around where a Rust `as` cast occurs); `isize` and `i32`
as `Int`.  Rust functions that take `&mut StdRng` become state-passing
functions returning a `_ × StdRng` pair; the order of random draws mirrors
the source's call order exactly.
-/

namespace Backgen

/-! ### Generic helpers (string handling, association lists) -/

/-- Split a character list on a separator, mirroring Rust `str::split` which
yields empty pieces for adjacent separators. -/
def charsSplit (sep : Char) : List Char → List (List Char)
  | [] => [[]]
  | c :: rest =>
    let r := charsSplit sep rest
    if c = sep then [] :: r
    else
      match r with
      | [] => [[c]]
      | h :: t => (c :: h) :: t

/-- Rust `s.split(sep)` (ASCII inputs: byte and char boundaries coincide). -/
def strSplit (sep : Char) (s : String) : List String :=
  (charsSplit sep s.data).map String.mk

/-- Decimal digit value of a character, if it is a digit. -/
def digitVal (c : Char) : Option Nat :=
  if c.isDigit then some (c.toNat - 48) else none

/-- Parse a non-empty all-digit character list as a natural number. -/
def parseNatChars : List Char → Option Nat
  | [] => none
  | l => l.foldl (fun acc c => acc.bind (fun a => (digitVal c).map (fun d => a * 10 + d))) (some 0)

/-- Rust `str::parse::<usize>()` (modulo a leading `+`, unused by configs). -/
def parseNat? (s : String) : Option Nat := parseNatChars s.data

/-- Hexadecimal digit value of a character, upper or lower case. -/
def hexDigitVal (c : Char) : Option Nat :=
  if c.isDigit then some (c.toNat - 48)
  else if 'a' ≤ c ∧ c ≤ 'f' then some (c.toNat - 97 + 10)
  else if 'A' ≤ c ∧ c ≤ 'F' then some (c.toNat - 65 + 10)
  else none

/-- Rust `usize::from_str_radix(s, 16)` on a non-empty digit string. -/
def parseHexChars : List Char → Option Nat
  | [] => none
  | l => l.foldl (fun acc c => acc.bind (fun a => (hexDigitVal c).map (fun d => a * 16 + d))) (some 0)

/-- Lookup in an association list; models `HashMap::get`. -/
def alookup {α : Type} (k : String) (l : List (String × α)) : Option α :=
  (l.find? (fun p => p.1 == k)).map (fun p => p.2)

/-- Insert (replace-or-append) in an association list; models `HashMap::insert`. -/
def ainsert {α : Type} (k : String) (v : α) : List (String × α) → List (String × α)
  | [] => [(k, v)]
  | (k1, v1) :: t => if k1 = k then (k, v) :: t else (k1, v1) :: ainsert k v t

/-- Rust `str::ends_with` (byte suffix; coincides with char suffix on ASCII). -/
def rustEndsWith (s suffix : String) : Bool :=
  suffix.data.isSuffixOf s.data

/-- Rust `i64 as usize` / `u64 as usize` style bit-cast of an integer. -/
def intAsUsize (i : Int) : Nat := (i % (2 : Int) ^ 64).toNat

/-- Rust `f64::round` (half away from zero), on the rational embedding. -/
def rustRound (q : ℚ) : Int :=
  if 0 ≤ q then ⌊q + 1/2⌋ else -(⌊-q + 1/2⌋)

/-! ### Random stream

Modelled from the spec: the PRNG itself (`rand::rngs::StdRng`) is an external
crate.  Per the spec, the seed is the sole source of non-determinism and a
single pseudo-random stream is seeded from it and threaded through every
random choice in a fixed call order.  The model is a deterministic stream:
a 64-bit seed plus a draw counter, each draw mixing both. -/

structure StdRng where
  seed : Nat
  ctr : Nat

/-- `StdRng::seed_from_u64` -/
def StdRng.seed_from_u64 (id : Nat) : StdRng := ⟨id % 2 ^ 64, 0⟩

/-- One 64-bit draw from the stream (stand-in for the external generator). -/
def StdRng.next (r : StdRng) : Nat × StdRng :=
  ((r.seed * 6364136223846793005 + r.ctr * 1442695040888963407 + 1013904223) % 2 ^ 64,
   ⟨r.seed, r.ctr + 1⟩)

/-- `rng.gen_range(lo, hi)` on integers: a value in `[lo, hi)`; requires `lo < hi`. -/
def StdRng.gen_range (r : StdRng) (lo hi : Int) : Int × StdRng :=
  let p := r.next
  (lo + (p.1 : Int) % (hi - lo), p.2)

/-- `rng.gen_range(lo, hi)` on naturals: a value in `[lo, hi)`; requires `lo < hi`. -/
def StdRng.gen_range_nat (r : StdRng) (lo hi : Nat) : Nat × StdRng :=
  let p := r.next
  (lo + p.1 % (hi - lo), p.2)

/-- `rng.gen::<f64>()`: a rational in `[0, 1)` with 53-bit resolution. -/
def StdRng.genUnit (r : StdRng) : ℚ × StdRng :=
  let p := r.next
  (((p.1 % 2 ^ 53 : Nat) : ℚ) / 2 ^ 53, p.2)

/-- `SliceRandom::choose` on a list: none when empty, else one draw picks an index. -/
def listChoose {α : Type} (l : List α) (r : StdRng) : Option α × StdRng :=
  match l with
  | [] => (none, r)
  | _ =>
    let p := r.next
    (l.get? (p.1 % l.length), p.2)

/-! ### `color.rs` -/

/-- `Color(usize, usize, usize)`; fields `r g b` stand for `.0 .1 .2`. -/
structure Color where
  r : Nat
  g : Nat
  b : Nat
deriving DecidableEq

/-- `Color::validate`: cap every channel at 255 (channels are unsigned). -/
def Color.validate (c : Color) : Color :=
  ⟨min c.r 255, min c.g 255, min c.b 255⟩

/-- One channel of `Color::variate`: `(ch as isize + delta).try_into().unwrap_or(0)`,
so any negative intermediate becomes 0. -/
def varChannel (ch : Nat) (delta : Int) : Nat := ((ch : Int) + delta).toNat

/-- `Color::variate`: additive jitter, each channel drawn from `[-amount, amount)`,
channels in source order, negative results clamped to 0. -/
def Color.variate (c : Color) (rng : StdRng) (amount : Nat) : Color × StdRng :=
  if 0 < amount then
    let p0 := rng.gen_range (-(amount : Int)) (amount : Int)
    let p1 := p0.2.gen_range (-(amount : Int)) (amount : Int)
    let p2 := p1.2.gen_range (-(amount : Int)) (amount : Int)
    (⟨varChannel c.r p0.1, varChannel c.g p1.1, varChannel c.b p2.1⟩, p2.2)
  else (c, rng)

/-- `Color::meanpoint`: `(self * distance + th * (100 - distance)) / 100` per channel.
`100 - distance` is `Nat` truncated subtraction here; the Rust `usize`
subtraction underflows for `distance > 100` — see `Color.meanpointChecked`. -/
def Color.meanpoint (c th : Color) (distance : Nat) : Color :=
  ⟨(c.r * distance + th.r * (100 - distance)) / 100,
   (c.g * distance + th.g * (100 - distance)) / 100,
   (c.b * distance + th.b * (100 - distance)) / 100⟩

/-- Rust `usize` subtraction as executed in debug builds: defined only when it
does not underflow. -/
def checkedSub (a b : Nat) : Option Nat :=
  if b ≤ a then some (a - b) else none

/-- `Color::meanpoint` with the `100 - distance` subtraction made explicit:
`none` exactly when the Rust subtraction underflows (`distance > 100`). -/
def Color.meanpointChecked (c th : Color) (distance : Nat) : Option Color :=
  match checkedSub 100 distance with
  | none => none
  | some w =>
    some ⟨(c.r * distance + th.r * w) / 100,
          (c.g * distance + th.g * w) / 100,
          (c.b * distance + th.b * w) / 100⟩

/-- `Color::random`: three channel draws from `[0, 255)`, in source order. -/
def Color.random (rng : StdRng) : Color × StdRng :=
  let p0 := rng.gen_range_nat 0 255
  let p1 := p0.2.gen_range_nat 0 255
  let p2 := p1.2.gen_range_nat 0 255
  (⟨p0.1, p1.1, p2.1⟩, p2.2)

/-- `impl fmt::Display for Color`: `rgb(r,g,b)` after `validate`. -/
def Color.toRgbString (c : Color) : String :=
  let v := c.validate
  "rgb(" ++ toString v.r ++ "," ++ toString v.g ++ "," ++ toString v.b ++ ")"

/-! ### `frame.rs` (not in the sources)

Modelled from the spec: a Frame is an axis-aligned rectangle `{x, y, w, h}`
in abstract drawing units, origin and extents non-negative. -/

structure Frame where
  x : Nat
  y : Nat
  w : Nat
  h : Nat
deriving DecidableEq

/-- Frame corners serialized into the `viewBox` attribute (see `svg.rs`). -/
def Frame.into_tuple (f : Frame) : Nat × Nat × Nat × Nat := (f.x, f.y, f.w, f.h)

/-! ### `pos.rs` -/

/-- `Pos(f64, f64)`; fields `x y` stand for `.0 .1`, coordinates embedded as `ℚ`. -/
structure Pos where
  x : ℚ
  y : ℚ
deriving DecidableEq

instance : Add Pos := ⟨fun p q => ⟨p.x + q.x, p.y + q.y⟩⟩

instance : Sub Pos := ⟨fun p q => ⟨p.x - q.x, p.y - q.y⟩⟩

instance : Neg Pos := ⟨fun p => ⟨-p.x, -p.y⟩⟩

/-- `Mul<f64> for Pos` -/
def Pos.smul (p : Pos) (k : ℚ) : Pos := ⟨p.x * k, p.y * k⟩

/-- `Pos::into_tuple` -/
def Pos.into_tuple (p : Pos) : ℚ × ℚ := (p.x, p.y)

/-- `Pos::round`: nearest 100th of a unit, `(self.0 * 100.).round() as i32`
per coordinate (`f64::round` is half-away-from-zero). -/
def Pos.round (p : Pos) : Int × Int :=
  (rustRound (p.x * 100), rustRound (p.y * 100))

/-- `Pos::dot_self` -/
def Pos.dot_self (p : Pos) : ℚ := p.x ^ 2 + p.y ^ 2

/-- `Pos::dot` -/
def Pos.dot (p q : Pos) : ℚ := p.x * q.x + p.y * q.y

/-- `Pos::random`: a point in the frame inflated by 10% on each side. -/
def Pos.random (f : Frame) (rng : StdRng) : Pos × StdRng :=
  let errx : ℚ := (f.w : ℚ) / 10
  let erry : ℚ := (f.h : ℚ) / 10
  let u1 := rng.genUnit
  let u2 := u1.2.genUnit
  (⟨(f.x : ℚ) - errx + u1.1 * (f.w : ℚ) * (6/5),
    (f.y : ℚ) - erry + u2.1 * (f.h : ℚ) * (6/5)⟩, u2.2)

/-- `crossprod_sign` -/
def crossprod_sign (a b c : Pos) : Bool :=
  decide (0 < (a.x - c.x) * (b.y - c.y) - (b.x - c.x) * (a.y - c.y))

/-- `impl PartialEq for Pos`: equality of the rounded coordinate pairs. -/
def Pos.peq (p q : Pos) : Bool :=
  (p.round.1 == q.round.1) && (p.round.2 == q.round.2)

/-- `impl Hash for Pos`: the hasher consumes only `self.round()`, so the hash
is `h (p.round)` for the (external) hasher function `h`. -/
def Pos.hashWith (h : Int × Int → Nat) (p : Pos) : Nat := h p.round

/-- The intersection point computed by the non-panicking branch of
`Pos::intersect` (the standard two-line intersection formula). -/
def Pos.intersectPoint (pos1 dir1 pos2 dir2 : Pos) : Pos :=
  let pos1b := pos1 + dir1
  let pos2b := pos2 + dir2
  let dx : Pos := ⟨pos1.x - pos1b.x, pos2.x - pos2b.x⟩
  let dy : Pos := ⟨pos1.y - pos1b.y, pos2.y - pos2b.y⟩
  let det := fun (a b : Pos) => a.x * b.y - a.y * b.x
  let div := det dx dy
  let inv := 1 / div
  let d : Pos := ⟨det pos1 pos1b, det pos2 pos2b⟩
  ⟨det d dx * inv, det d dy * inv⟩

/-- `Pos::intersect`.  The Rust function receives `(pos, rot)` pairs and first
forms `posb = pos + Pos::polar(rot, 1.)`; `polar` uses transcendental `cos`/`sin`
which have no rational embedding, so the model receives the already-computed
unit direction vectors `dir1 = polar(rot1, 1.)`, `dir2 = polar(rot2, 1.)` and
performs every subsequent step of the source.  The `panic!("Malformed
intersection")` is embedded as `Except.error`. -/
def Pos.intersect (pos1 dir1 pos2 dir2 : Pos) : Except String Pos :=
  let pos1b := pos1 + dir1
  let pos2b := pos2 + dir2
  let dx : Pos := ⟨pos1.x - pos1b.x, pos2.x - pos2b.x⟩
  let dy : Pos := ⟨pos1.y - pos1b.y, pos2.y - pos2b.y⟩
  let det := fun (a b : Pos) => a.x * b.y - a.y * b.x
  let div := det dx dy
  if |div| < 1/100 then Except.error "Malformed intersection"
  else Except.ok (Pos.intersectPoint pos1 dir1 pos2 dir2)

/-- A point lies on the line through `a` with direction `d`. -/
def onLine (p a d : Pos) : Prop := (p.x - a.x) * d.y = (p.y - a.y) * d.x

/-! ### `salt.rs` (not in the sources)

Modelled from the spec: a Salt is zero or more (replacement color, selection
likeliness, jitter amount) entries; "no salt" is the distinguished empty value. -/

structure SaltItem where
  color : Color
  likeliness : ℚ
  variability : Nat
deriving DecidableEq

structure Salt where
  items : List SaltItem
deriving DecidableEq

/-- `Salt::none` -/
def Salt.none : Salt := ⟨[]⟩

/-- `ThemeItem(Color, Option<usize>, Option<usize>, Salt)` from `lib.rs`;
fields: color, deviation override, distance override, salt. -/
structure ThemeItem where
  color : Color
  var : Option Nat
  dist : Option Nat
  salt : Salt
deriving DecidableEq

/-! ### `chooser.rs` (not in the sources)

Modelled from the spec: an ordered sequence of (item, non-negative weight)
pairs; `choose` draws with probability proportional to weight, `none` on an
empty or all-zero-weight collection; `push` appends; `append`/`extract`
merge and flatten; insertion order is preserved. -/

structure Chooser (α : Type) where
  entries : List (α × Nat)
deriving DecidableEq

/-- `Chooser::new` -/
def Chooser.new {α : Type} (l : List (α × Nat)) : Chooser α := ⟨l⟩

/-- Total weight of a chooser. -/
def Chooser.total {α : Type} (c : Chooser α) : Nat :=
  c.entries.foldl (fun acc e => acc + e.2) 0

/-- Walk the cumulative weights and return the item owning position `k`. -/
def pickWeighted {α : Type} : List (α × Nat) → Nat → Option α
  | [], _ => none
  | (a, w) :: t, k => if k < w then some a else pickWeighted t (k - w)

/-- `Chooser::choose`: none if the total weight is zero, else a weighted draw
consuming one random value. -/
def Chooser.choose {α : Type} (c : Chooser α) (r : StdRng) : Option α × StdRng :=
  if c.total = 0 then (none, r)
  else
    let p := r.next
    (pickWeighted c.entries (p.1 % c.total), p.2)

/-- `Chooser::push` -/
def Chooser.push {α : Type} (c : Chooser α) (a : α) (w : Nat) : Chooser α :=
  ⟨c.entries ++ [(a, w)]⟩

/-- `Chooser::append` -/
def Chooser.append {α : Type} (c : Chooser α) (l : List (α × Nat)) : Chooser α :=
  ⟨c.entries ++ l⟩

/-- `Chooser::extract` -/
def Chooser.extract {α : Type} (c : Chooser α) : List (α × Nat) := c.entries

/-! ### `cfg.rs` enumerations -/

/-- The nine pattern families. -/
inductive Pattern where
  | FreeCircles
  | FreeTriangles
  | FreeStripes
  | FreeSpirals
  | ConcentricCircles
  | ParallelStripes
  | CrossedStripes
  | ParallelWaves
  | ParallelSawteeth
deriving DecidableEq

/-- The seven tiling families (`Pentagons(u8)` carries its sub-type). -/
inductive Tiling where
  | Hexagons
  | Triangles
  | HexagonsAndTriangles
  | SquaresAndTriangles
  | Rhombus
  | Delaunay
  | Pentagons (n : Nat)
deriving DecidableEq

/-- The vector literal in `Pattern::choose`. -/
def patternFamilies : List Pattern :=
  [.FreeCircles, .FreeTriangles, .FreeStripes, .FreeSpirals, .ConcentricCircles,
   .ParallelStripes, .CrossedStripes, .ParallelWaves, .ParallelSawteeth]

/-- The vector literal in `Tiling::choose`. -/
def tilingFamilies : List Tiling :=
  [.Hexagons, .Triangles, .HexagonsAndTriangles, .SquaresAndTriangles,
   .Rhombus, .Delaunay, .Pentagons 0]

/-- `Pattern::choose`: uniform pick from the nine families (one draw; the
default is never used since the index is reduced modulo the length). -/
def Pattern.choose (r : StdRng) : Pattern × StdRng :=
  let p := r.next
  (patternFamilies.getD (p.1 % 9) .FreeCircles, p.2)

/-- `Tiling::choose`: uniform pick from the seven families (one draw; the
default is never used since the index is reduced modulo the length). -/
def Tiling.choose (r : StdRng) : Tiling × StdRng :=
  let p := r.next
  (tilingFamilies.getD (p.1 % 7) .Hexagons, p.2)

/-! ### `svg.rs` -/

/-- `Data(Vec<Pos>)`: the vertex list of a closed polygon. -/
structure Data where
  poss : List Pos

/-- `Path`: stroke/fill settings plus vertex data. -/
structure Path where
  stroke_width : ℚ
  stroke_color : Color
  fill_color : Color
  data : Data

/-- `Document`: the enclosing frame plus the accumulated paths. -/
structure Document where
  frame : Frame
  items : List Path

/-- `Data::new` -/
def Data.new (pos : Pos) : Data := ⟨[pos]⟩

/-- `Data::line_to` / `Data::with_line_to` -/
def Data.with_line_to (d : Data) (pos : Pos) : Data := ⟨d.poss ++ [pos]⟩

/-- `Path::new`: zero stroke width, black stroke, white fill. -/
def Path.new (d : Data) : Path := ⟨0, ⟨0, 0, 0⟩, ⟨255, 255, 255⟩, d⟩

/-- `Path::with_fill_color` -/
def Path.with_fill_color (p : Path) (c : Color) : Path := { p with fill_color := c }

/-- `Path::with_stroke_color` -/
def Path.with_stroke_color (p : Path) (c : Color) : Path := { p with stroke_color := c }

/-- `Path::with_stroke_width` -/
def Path.with_stroke_width (p : Path) (w : ℚ) : Path := { p with stroke_width := w }

/-- `Document::new` -/
def Document.new (f : Frame) : Document := ⟨f, []⟩

/-- `Document::add` -/
def Document.add (doc : Document) (p : Path) : Document := ⟨doc.frame, doc.items ++ [p]⟩

/-- Decimal text of a rational coordinate (stand-in for the external `f64`
formatter; any fixed injective rendering preserves the determinism and
byte-identity statements). -/
def renderQ (q : ℚ) : String :=
  if q.den = 1 then toString q.num else toString q.num ++ "/" ++ toString q.den

/-- `impl Display for Data`: `M<x>,<y> L<x>,<y> ... z`. -/
def renderData (d : Data) : String :=
  (match d.poss with
   | [] => ""
   | p :: _ => "M" ++ renderQ p.x ++ "," ++ renderQ p.y ++ " ")
  ++ String.join ((d.poss.drop 1).map (fun p => "L" ++ renderQ p.x ++ "," ++ renderQ p.y ++ " "))
  ++ "z"

/-- `impl Display for Path`. -/
def renderPath (p : Path) : String :=
  "<path d=\"" ++ renderData p.data ++ "\" fill=\"" ++ p.fill_color.toRgbString
  ++ "\" stroke=\"" ++ p.stroke_color.toRgbString
  ++ "\" stroke-width=\"" ++ renderQ p.stroke_width ++ "\" />"

/-- `impl Display for Document`: the serialized vector output. -/
def renderDocument (doc : Document) : String :=
  "<svg viewBox=\"" ++ toString doc.frame.x ++ " " ++ toString doc.frame.y ++ " "
  ++ toString doc.frame.w ++ " " ++ toString doc.frame.h
  ++ "\" xmlns=\"http://www.w3.org/2000/svg\">\n"
  ++ String.join (doc.items.map (fun p => renderPath p ++ "\n"))
  ++ "</svg>"

/-- The three dispatch outcomes of `Document::save`. -/
inductive SaveBranch where
  | svg
  | png
  | unsupported
deriving DecidableEq

/-- The extension dispatch of `Document::save` (`svg.rs` lines 72-118): the
`.svg`/`.svg.tmp` suffixes select the vector branch, `.png`/`.png.tmp` the
raster branch, and anything else returns the `InvalidData` error "Can only
support .svg and .png extensions" before any file is created or written.
The file-system side effects inside the accepted branches are external. -/
def save_branch (dest : String) : SaveBranch :=
  if rustEndsWith dest ".svg" || rustEndsWith dest ".svg.tmp" then .svg
  else if rustEndsWith dest ".png" || rustEndsWith dest ".png.tmp" then .png
  else .unsupported

/-! ### `cfg.rs` and `paint.rs` data -/

/-- `SceneCfg`: the fully-resolved generation descriptor. -/
structure SceneCfg where
  theme : Chooser ThemeItem
  distance : Nat
  deviation : Nat
  frame : Frame
  pattern : Pattern
  tiling : Tiling
  nb_pattern : Nat
  var_stripes : Nat
  size_tiling : ℚ
  nb_delaunay : Nat
  width_pattern : ℚ
  line_width : ℚ
  line_color : Color
  tightness_spiral : ℚ

/-- `ColorItem` (declared in the absent `paint.rs`, modelled from the spec and
its construction in `cfg.rs::choose_color`): the resolved color recipe of one
decorative element. -/
structure ColorItem where
  shade : Color
  deviation : Nat
  distance : Nat
  theme : Color
  salt : Salt

/-- `SceneCfg::choose_color`: a weighted theme draw (falling back to an
all-default black item), then a fresh random shade; per-item overrides of
deviation and distance are applied with no range check. -/
def SceneCfg.choose_color (cfg : SceneCfg) (rng : StdRng) : ColorItem × StdRng :=
  let p := cfg.theme.choose rng
  let ti := p.1.getD ⟨⟨0, 0, 0⟩, none, none, Salt.none⟩
  let pr := Color.random p.2
  (⟨pr.1, ti.var.getD cfg.deviation, ti.dist.getD cfg.distance, ti.color, ti.salt⟩, pr.2)

/-! ### `deserializer.rs`: raw configuration data -/

/-- The TOML value tree handed over by the external parser (interface model
of `toml::Value`; date-time values do not occur in this configuration). -/
inductive Value where
  | str (s : String)
  | integer (n : Int)
  | float (q : ℚ)
  | boolean (b : Bool)
  | array (l : List Value)
  | table (l : List (String × Value))

/-- `ConfigGlobal` -/
structure ConfigGlobal where
  deviation : Option Nat
  weight : Option Nat
  distance : Option Nat
  size : Option ℚ
  width : Option Nat
  height : Option Nat

/-- `ConfigLines` -/
structure ConfigLines where
  width : Option ℚ
  color : Option String
  del_width : Option ℚ
  del_color : Option String
  hex_width : Option ℚ
  hex_color : Option String
  tri_width : Option ℚ
  tri_color : Option String
  rho_width : Option ℚ
  rho_color : Option String
  hex_and_tri_width : Option ℚ
  hex_and_tri_color : Option String
  squ_and_tri_width : Option ℚ
  squ_and_tri_color : Option String
  pen_width : Option ℚ
  pen_color : Option String

/-- `ConfigColors` (serde-flattened map) -/
structure ConfigColors where
  list : List (String × Value)

/-- `ConfigThemes` (serde-flattened map) -/
structure ConfigThemes where
  list : List (String × Value)

/-- `ConfigShapes` (serde-flattened map) -/
structure ConfigShapes where
  list : List (String × Value)

/-- `ConfigTilings` -/
structure ConfigTilings where
  size_hex : Option ℚ
  size_tri : Option ℚ
  size_hex_and_tri : Option ℚ
  size_squ_and_tri : Option ℚ
  size_rho : Option ℚ
  size_pen : Option ℚ
  nb_delaunay : Option Nat

/-- `ConfigPatterns` -/
structure ConfigPatterns where
  nb_free_circles : Option Nat
  nb_free_spirals : Option Nat
  nb_free_stripes : Option Nat
  nb_crossed_stripes : Option Nat
  nb_parallel_stripes : Option Nat
  nb_concentric_circles : Option Nat
  nb_free_triangles : Option Nat
  nb_parallel_waves : Option Nat
  nb_parallel_sawteeth : Option Nat
  var_parallel_stripes : Option Nat
  var_crossed_stripes : Option Nat
  width_spiral : Option ℚ
  width_stripe : Option ℚ
  width_wave : Option ℚ
  width_sawtooth : Option ℚ
  tightness_spiral : Option ℚ

/-- `ConfigData` -/
structure ConfigData where
  patterns : Option ConfigPatterns
  tilings : Option ConfigTilings

/-- `ConfigEntry` -/
structure ConfigEntry where
  span : Option String
  distance : Option Nat
  themes : Option (List String)
  shapes : Option (List String)
  line_color : Option String

/-- `MetaConfig` -/
structure MetaConfig where
  global : Option ConfigGlobal
  lines : Option ConfigLines
  colors : Option ConfigColors
  themes : Option ConfigThemes
  shapes : Option ConfigShapes
  data : Option ConfigData
  entry : Option (List ConfigEntry)

/-- `MetaConfig::default`: every section absent.  `MetaConfig::from_string`
falls back to this for the empty (or any unparsable) document; TOML parsing
itself is external to the repository. -/
def MetaConfig.default : MetaConfig := ⟨none, none, none, none, none, none, none⟩

/-! ### `deserializer.rs`: constants -/

def BASE_WEIGHT : Nat := 10
def DEVIATION : Nat := 20
def DISTANCE : Nat := 40
def SIZE : ℚ := 15
def WIDTH : Nat := 1000
def HEIGHT : Nat := 600
def NB_FREE_CIRCLES : Nat := 10
def NB_FREE_TRIANGLES : Nat := 15
def NB_FREE_STRIPES : Nat := 7
def NB_PARALLEL_STRIPES : Nat := 15
def NB_CONCENTRIC_CIRCLES : Nat := 5
def NB_CROSSED_STRIPES : Nat := 10
def NB_FREE_SPIRALS : Nat := 3
def NB_PARALLEL_WAVES : Nat := 15
def NB_PARALLEL_SAWTEETH : Nat := 15
def VAR_PARALLEL_STRIPES : Nat := 15
def VAR_CROSSED_STRIPES : Nat := 10
def WIDTH_SPIRAL : ℚ := 3/10
def WIDTH_STRIPE : ℚ := 1/10
def WIDTH_WAVE : ℚ := 3/10
def WIDTH_SAWTOOTH : ℚ := 3/10
def TIGHTNESS_SPIRAL : ℚ := 1/2
def NB_DELAUNAY : Nat := 1000
def LINE_WIDTH : ℚ := 1
def LINE_COLOR : Color := ⟨0, 0, 0⟩

/-! ### `deserializer.rs`: resolution functions -/

/-- `color_from_value`: a named color, a `#RRGGBB` hex string (length 7,
leading `#`, byte slices `[1..3]`, `[3..5]`, `[5..7]`), or a 3-element
integer array (each `i64 as usize`).  The error text is abbreviated. -/
def color_from_value (val : Value) (dict : List (String × Color)) : Except String Color :=
  match val with
  | .str s =>
    (match alookup s dict with
     | some c => .ok c
     | Option.none =>
       if s.data.length = 7 ∧ s.data.head? = some '#' then
         match parseHexChars ((s.data.drop 1).take 2),
               parseHexChars ((s.data.drop 3).take 2),
               parseHexChars ((s.data.drop 5).take 2) with
         | some r, some g, some b => .ok ⟨r, g, b⟩
         | _, _, _ => .error "invalid color format"
       else .error "invalid color format")
  | .array arr =>
    if arr.length ≠ 3 then .error "invalid color format"
    else
      match arr with
      | [.integer r, .integer g, .integer b] => .ok ⟨intAsUsize r, intAsUsize g, intAsUsize b⟩
      | _ => .error "invalid color format"
  | _ => .error "invalid color format"

/-- One token of the string grammar in `theme_item_from_value`: `x<N>` sets
the weight, `~<N>` the deviation override, `!<N>` the distance override, and
a bare token is a color reference (invalid ones are ignored).  The mutable
state is `(color, weight, deviation, distance)`. -/
def themeTokenStep (dict : List (String × Color)) (st : Color × Nat × Option Nat × Option Nat)
    (item : String) : Color × Nat × Option Nat × Option Nat :=
  match item.data with
  | [] => st
  | c :: rest =>
    if c = 'x' then (st.1, (parseNatChars rest).getD BASE_WEIGHT, st.2.2.1, st.2.2.2)
    else if c = '~' then (st.1, st.2.1, parseNatChars rest, st.2.2.2)
    else if c = '!' then (st.1, st.2.1, st.2.2.1, parseNatChars rest)
    else
      match color_from_value (Value.str item) dict with
      | .ok cl => (cl, st.2.1, st.2.2.1, st.2.2.2)
      | .error _ => st

/-- One entry of the `salt` array in the table branch of
`theme_item_from_value`; non-table entries are skipped. -/
def saltItemOfValue (dict : List (String × Color)) (item : Value) : Option SaltItem :=
  match item with
  | .table tbl =>
    let color := ((alookup "color" tbl).map (fun v =>
      match color_from_value v dict with
      | .ok c => c
      | .error _ => (⟨0, 0, 0⟩ : Color))).getD ⟨0, 0, 0⟩
    let likeliness : ℚ :=
      match alookup "likeliness" tbl with
      | Option.none => 1
      | some (.float f) => f
      | some (.integer n) => (n : ℚ)
      | some _ => 1
    let variability : Nat :=
      match alookup "variability" tbl with
      | Option.none => 0
      | some (.integer n) => if 0 < n then n.toNat else 0
      | some (.float f) => if 0 < f then (rustRound f).toNat else 0
      | some _ => 0
    some ⟨color, likeliness, variability⟩
  | _ => Option.none

/-- `theme_item_from_value`: a space-separated token string, or a table with
`color`, `variability`, `distance`, `weight` and `salt` fields; anything else
is an all-default black item with the base weight. -/
def theme_item_from_value (val : Value) (dict : List (String × Color)) : ThemeItem × Nat :=
  match val with
  | .str s =>
    let st := (strSplit ' ' s).foldl (themeTokenStep dict)
      ((⟨0, 0, 0⟩ : Color), BASE_WEIGHT, Option.none, Option.none)
    (⟨st.1, st.2.2.1, st.2.2.2, Salt.none⟩, st.2.1)
  | .table map =>
    let color :=
      match alookup "color" map with
      | some v => (match color_from_value v dict with | .ok c => c | .error _ => ⟨0, 0, 0⟩)
      | Option.none => ⟨0, 0, 0⟩
    let var : Option Nat :=
      ((match alookup "variability" map with
        | some (.integer v) => some v
        | some (.float v) => some (rustRound v)
        | some _ => Option.none
        | Option.none => Option.none : Option Int)).map (fun n => (max n 0).toNat)
    let dist : Option Nat :=
      ((match alookup "distance" map with
        | some (.integer d) => some d
        | some (.float d) => some (rustRound d)
        | some _ => Option.none
        | Option.none => Option.none : Option Int)).map (fun n => (max n 0).toNat)
    let wht : Nat :=
      match alookup "weight" map with
      | some (.integer w) => (max w 0).toNat
      | some (.float w) => (max (rustRound w) 0).toNat
      | some _ => BASE_WEIGHT
      | Option.none => BASE_WEIGHT
    let salt : Salt :=
      match alookup "salt" map with
      | Option.none => Salt.none
      | some (.array vec) =>
        ⟨vec.foldl (fun acc it =>
          match saltItemOfValue dict it with
          | some si => acc ++ [si]
          | Option.none => acc) []⟩
      | some _ => Salt.none
    (⟨color, var, dist, salt⟩, wht)
  | _ => (⟨⟨0, 0, 0⟩, Option.none, Option.none, Salt.none⟩, BASE_WEIGHT)

/-- `theme_from_value`: only an array of theme items (or of names of earlier
themes, flattened) is accepted; any other shape — including a bare string —
falls through to the trailing error, so the string pre-scan that fills
`items0` is dead code exactly as in the source. -/
def theme_from_value (v : Value) (colors : List (String × Color))
    (themes : List (String × Chooser ThemeItem)) : Except String (Chooser ThemeItem) :=
  let items0 : List (ThemeItem × Nat) :=
    match v with
    | .str s => (match alookup s themes with | some th => th.extract | Option.none => [])
    | _ => []
  match v with
  | .array a =>
    let items := a.foldl (fun acc x =>
      match x with
      | .str s =>
        (match alookup s themes with
         | some th => acc ++ th.extract
         | Option.none => acc ++ [theme_item_from_value x colors])
      | _ => acc ++ [theme_item_from_value x colors]) items0
    .ok (Chooser.new items)
  | _ => .error "not a valid theme"

/-- `add_shape`: the closed shape-token table; unknown tokens are reported
and skipped (modelled as the identity). -/
def add_shape (s : String) (w : Nat) (tilings : Chooser Tiling) (patterns : Chooser Pattern) :
    Chooser Tiling × Chooser Pattern :=
  match s with
  | "H" | "hex." | "hexagons" => (tilings.push .Hexagons w, patterns)
  | "T" | "tri." | "triangles" => (tilings.push .Triangles w, patterns)
  | "H&T" | "hex.&tri." | "hexagons&squares" => (tilings.push .HexagonsAndTriangles w, patterns)
  | "S&T" | "squ.&tri." | "squares&triangles" => (tilings.push .SquaresAndTriangles w, patterns)
  | "R" | "rho." | "rhombus" => (tilings.push .Rhombus w, patterns)
  | "D" | "del." | "delaunay" => (tilings.push .Delaunay w, patterns)
  | "P" | "pen." | "pentagons" => (tilings.push (.Pentagons 0) w, patterns)
  | "P1" | "pen.1" | "pentagons-1" => (tilings.push (.Pentagons 1) w, patterns)
  | "P2" | "pen.2" | "pentagons-2" => (tilings.push (.Pentagons 2) w, patterns)
  | "P3" | "pen.3" | "pentagons-3" => (tilings.push (.Pentagons 3) w, patterns)
  | "P4" | "pen.4" | "pentagons-4" => (tilings.push (.Pentagons 4) w, patterns)
  | "P5" | "pen.5" | "pentagons-5" => (tilings.push (.Pentagons 5) w, patterns)
  | "P6" | "pen.6" | "pentagons-6" => (tilings.push (.Pentagons 6) w, patterns)
  | "FC" | "f-cir." | "free-circles" => (tilings, patterns.push .FreeCircles w)
  | "FT" | "f-tri." | "free-triangles" => (tilings, patterns.push .FreeTriangles w)
  | "FR" | "f-str." | "free-stripes" => (tilings, patterns.push .FreeStripes w)
  | "FP" | "f-spi." | "free-spirals" => (tilings, patterns.push .FreeSpirals w)
  | "CC" | "c-cir." | "concentric-circles" => (tilings, patterns.push .ConcentricCircles w)
  | "PS" | "p-str." | "parallel-stripes" => (tilings, patterns.push .ParallelStripes w)
  | "CS" | "c-str." | "crossed-stripes" => (tilings, patterns.push .CrossedStripes w)
  | "PW" | "p-wav." | "parallel-waves" => (tilings, patterns.push .ParallelWaves w)
  | "PT" | "p-saw." | "parallel-sawteeth" => (tilings, patterns.push .ParallelSawteeth w)
  | _ => (tilings, patterns)

/-- `shapes_from_value`: an array of shape tokens (base weight), references
to earlier shape combinations (flattened), or `[token, weight]` pairs with a
positive weight; invalid entries are reported and skipped.  Returns
`(patterns, tilings)` in that order, as the source does. -/
def shapes_from_value (val : Value)
    (shapes : List (String × (Chooser Pattern × Chooser Tiling))) :
    Chooser Pattern × Chooser Tiling :=
  let st0 : Chooser Tiling × Chooser Pattern := (Chooser.new [], Chooser.new [])
  let st :=
    match val with
    | .array arr =>
      arr.foldl (fun (st : Chooser Tiling × Chooser Pattern) (x : Value) =>
        match x with
        | .str s =>
          (match alookup s shapes with
           | some pt => (st.1.append pt.2.extract, st.2.append pt.1.extract)
           | Option.none => add_shape s BASE_WEIGHT st.1 st.2)
        | .array a =>
          (match a with
           | [.str s, .integer w] => if 0 < w then add_shape s (intAsUsize w) st.1 st.2 else st
           | _ => st)
        | _ => st) st0
    | _ => st0
  (st.2, st.1)

/-- `choose_theme_shapes`: filter the time-span entries containing `time`,
weight-choose one by its `distance` field, then pick a theme name, a shape
name and the line-color override from it. -/
def choose_theme_shapes (rng : StdRng) (entry : Option (List ConfigEntry)) (time : Nat) :
    (String × String × String) × StdRng :=
  match entry with
  | Option.none => (("", "", ""), rng)
  | some v =>
    let valid : Chooser ConfigEntry := v.foldl (fun ch e =>
      let markers := strSplit '-' (e.span.getD "-")
      let start :=
        match markers.get? 0 with
        | some m => (parseNat? m).getD 0
        | Option.none => 0
      let endv :=
        match markers.get? 1 with
        | some m => (parseNat? m).getD 2400
        | Option.none => 2400
      if start ≤ time ∧ time ≤ endv then ch.push e (e.distance.getD BASE_WEIGHT) else ch)
      (Chooser.new [])
    let pe := valid.choose rng
    match pe.1 with
    | Option.none => (("", "", ""), pe.2)
    | some ce =>
      let pth :=
        match ce.themes with
        | Option.none => ("", pe.2)
        | some ths => let o := listChoose ths pe.2; (o.1.getD "", o.2)
      let psh :=
        match ce.shapes with
        | Option.none => ("", pth.2)
        | some shs => let o := listChoose shs pth.2; (o.1.getD "", o.2)
      let lc := ce.line_color.getD ""
      ((pth.1, psh.1, lc), psh.2)

/-- `ConfigLines::get_settings`: per-tiling width/color override, else the
generic line settings, else the constants. -/
def ConfigLines.get_settings (l : ConfigLines) (tiling : Tiling)
    (colors : List (String × Color)) : ℚ × Color :=
  let wc : Option ℚ × Option String :=
    match tiling with
    | .Hexagons => (l.hex_width, l.hex_color)
    | .Triangles => (l.tri_width, l.tri_color)
    | .HexagonsAndTriangles => (l.hex_and_tri_width, l.hex_and_tri_color)
    | .SquaresAndTriangles => (l.squ_and_tri_width, l.squ_and_tri_color)
    | .Rhombus => (l.rho_width, l.rho_color)
    | .Pentagons _ => (l.pen_width, l.pen_color)
    | .Delaunay => (l.del_width, l.del_color)
  let w := wc.1.getD (l.width.getD LINE_WIDTH)
  let c :=
    (match wc.2 with
     | some c => (color_from_value (.str c) colors).toOption
     | Option.none => Option.none).getD
      ((match l.color with
        | some color => (color_from_value (.str color) colors).toOption
        | Option.none => Option.none).getD LINE_COLOR)
  (w, c)

/-- The named-color dictionary of `pick_cfg` (lines 187-201): entries are
resolved in document order against the colors accumulated so far, and
unparsable entries are silently dropped. -/
def buildColors (list : List (String × Value)) : List (String × Color) :=
  list.foldl (fun colors nv =>
    match color_from_value nv.2 colors with
    | .ok c => ainsert nv.1 c colors
    | .error _ => colors) []

/-- The named-theme dictionary of `pick_cfg` (lines 203-217): entries are
resolved in document order against the colors and the themes accumulated so
far, and entries `theme_from_value` rejects are silently dropped. -/
def buildThemes (list : List (String × Value)) (colors : List (String × Color)) :
    List (String × Chooser ThemeItem) :=
  list.foldl (fun themes nv =>
    match theme_from_value nv.2 colors themes with
    | .ok th => ainsert nv.1 th themes
    | .error _ => themes) []

/-- The shape-combination dictionary of `pick_cfg` (lines 219-228): every
entry is inserted (resolution itself never fails). -/
def buildShapes (list : List (String × Value)) :
    List (String × (Chooser Pattern × Chooser Tiling)) :=
  list.foldl (fun shapes nv => ainsert nv.1 (shapes_from_value nv.2 shapes) shapes) []

/-- The tiling/pattern family selection of `pick_cfg` (lines 231-237): if the
selected shape-combination name resolves, weight-choose tiling then pattern
from its two choosers (falling back to a uniform family pick when a chooser
comes up empty); otherwise pick both families uniformly at random. -/
def pick_tiling_pattern (shapes : List (String × (Chooser Pattern × Chooser Tiling)))
    (shapeName : String) (rng : StdRng) : (Tiling × Pattern) × StdRng :=
  match alookup shapeName shapes with
  | Option.none =>
    let t := Tiling.choose rng
    let p := Pattern.choose t.2
    ((t.1, p.1), p.2)
  | some pt =>
    let to1 := pt.2.choose rng
    let t :=
      match to1.1 with
      | some t => (t, to1.2)
      | Option.none => Tiling.choose to1.2
    let po1 := pt.1.choose t.2
    let p :=
      match po1.1 with
      | some p => (p, po1.2)
      | Option.none => Pattern.choose po1.2
    ((t.1, p.1), p.2)

/-- The pattern-specific parameter block of `pick_cfg` (lines 240-317):
`(nb_pattern, var_stripes, width_pattern, tightness_spiral)` from document
overrides when a patterns section exists, else the per-family constants. -/
def pick_pattern_params (data : Option ConfigData) (pattern : Pattern) : Nat × Nat × ℚ × ℚ :=
  match data with
  | some ⟨some p, _⟩ =>
    (match pattern with
     | .FreeCircles => (p.nb_free_circles.getD NB_FREE_CIRCLES, 0, 0, 0)
     | .FreeTriangles => (p.nb_free_triangles.getD NB_FREE_TRIANGLES, 0, 0, 0)
     | .FreeStripes => (p.nb_free_stripes.getD NB_FREE_STRIPES, 0, p.width_stripe.getD WIDTH_STRIPE, 0)
     | .FreeSpirals => (p.nb_free_spirals.getD NB_FREE_SPIRALS, 0, p.width_spiral.getD WIDTH_SPIRAL, p.tightness_spiral.getD TIGHTNESS_SPIRAL)
     | .ConcentricCircles => (p.nb_concentric_circles.getD NB_CONCENTRIC_CIRCLES, 0, 0, 0)
     | .ParallelStripes => (p.nb_parallel_stripes.getD NB_PARALLEL_STRIPES, p.var_parallel_stripes.getD VAR_PARALLEL_STRIPES, 0, 0)
     | .CrossedStripes => (p.nb_crossed_stripes.getD NB_CROSSED_STRIPES, p.var_crossed_stripes.getD VAR_CROSSED_STRIPES, 0, 0)
     | .ParallelWaves => (p.nb_parallel_waves.getD NB_PARALLEL_WAVES, 0, p.width_wave.getD WIDTH_WAVE, 0)
     | .ParallelSawteeth => (p.nb_parallel_sawteeth.getD NB_PARALLEL_SAWTEETH, 0, p.width_sawtooth.getD WIDTH_SAWTOOTH, 0))
  | _ =>
    (match pattern with
     | .FreeCircles => (NB_FREE_CIRCLES, 0, 0, 0)
     | .FreeTriangles => (NB_FREE_TRIANGLES, 0, 0, 0)
     | .FreeStripes => (NB_FREE_STRIPES, 0, WIDTH_STRIPE, 0)
     | .FreeSpirals => (NB_FREE_SPIRALS, 0, WIDTH_SPIRAL, TIGHTNESS_SPIRAL)
     | .ConcentricCircles => (NB_CONCENTRIC_CIRCLES, 0, 0, 0)
     | .ParallelStripes => (NB_PARALLEL_STRIPES, VAR_PARALLEL_STRIPES, 0, 0)
     | .CrossedStripes => (NB_CROSSED_STRIPES, VAR_CROSSED_STRIPES, 0, 0)
     | .ParallelWaves => (NB_PARALLEL_WAVES, 0, WIDTH_WAVE, 0)
     | .ParallelSawteeth => (NB_PARALLEL_SAWTEETH, 0, WIDTH_SAWTOOTH, 0))

/-- The default-theme synthesis of `pick_cfg` (lines 319-344): when no theme
resolved, insert a single-entry `-default-` theme built from a random color
dictionary pick, or from a fully random color when the dictionary is empty.

The pick enumerates `colors.keys().collect::<Vec<_>>()` (deserializer.rs:334)
over a `std::collections::HashMap`, whose iteration order is randomized per
run by the std hasher and is *not* derived from the seeded stream.  The
ambient order of one run is modelled by `ord`, which rearranges the stored
keys (a second, independent source of non-determinism: any permutation of
the keys is a legitimate enumeration). -/
def default_themes (ord : List String → List String)
    (themes0 : List (String × Chooser ThemeItem))
    (colors : List (String × Color)) (rng : StdRng) :
    List (String × Chooser ThemeItem) × StdRng :=
  if themes0.isEmpty then
    if colors.isEmpty then
      let pr := Color.random rng
      (ainsert "-default-" (Chooser.new
        [((⟨pr.1, Option.none, Option.none, Salt.none⟩ : ThemeItem), BASE_WEIGHT)]) themes0, pr.2)
    else
      let pk := listChoose (ord (colors.map Prod.fst)) rng
      let col := (pk.1.bind (fun k => alookup k colors)).getD ⟨0, 0, 0⟩
      (ainsert "-default-" (Chooser.new
        [((⟨col, Option.none, Option.none, Salt.none⟩ : ThemeItem), BASE_WEIGHT)]) themes0, pk.2)
  else (themes0, rng)

/-- The tiling-specific option block of `pick_cfg` (lines 346-373):
`(size_tiling, nb_delaunay)` from document overrides when a tilings section
exists, else the resolved global size (or the Delaunay point-count constant). -/
def pick_tiling_size (data : Option ConfigData) (tiling : Tiling) (size : ℚ) : ℚ × Nat :=
  match data with
  | some ⟨_, some t⟩ =>
    (match tiling with
     | .Hexagons => (t.size_hex.getD size, 0)
     | .Triangles => (t.size_tri.getD size, 0)
     | .HexagonsAndTriangles => (t.size_hex_and_tri.getD size, 0)
     | .SquaresAndTriangles => (t.size_squ_and_tri.getD size, 0)
     | .Rhombus => (t.size_rho.getD size, 0)
     | .Pentagons _ => (t.size_pen.getD size, 0)
     | .Delaunay => (0, t.nb_delaunay.getD NB_DELAUNAY))
  | _ =>
    (match tiling with
     | .Hexagons => (size, 0)
     | .Triangles => (size, 0)
     | .HexagonsAndTriangles => (size, 0)
     | .SquaresAndTriangles => (size, 0)
     | .Rhombus => (size, 0)
     | .Pentagons _ => (size, 0)
     | .Delaunay => (0, NB_DELAUNAY))

/-- The `theme` field resolution of `pick_cfg` (lines 385-392): look up the
selected theme name, else pick one of the (non-empty) dictionary's keys; the
final `getD` mirrors the source's infallible `unwrap`.

The fallback enumerates `themes.keys().collect::<Vec<_>>()`
(deserializer.rs:389) over a `std::collections::HashMap`; as in
`default_themes`, the run's per-process-random iteration order is modelled by
the ambient `ord` rearranging the stored keys. -/
def resolve_theme (ord : List String → List String)
    (themes : List (String × Chooser ThemeItem)) (themeName : String)
    (rng : StdRng) : Chooser ThemeItem × StdRng :=
  match alookup themeName themes with
  | some t => (t, rng)
  | Option.none =>
    let pk := listChoose (ord (themes.map Prod.fst)) rng
    ((pk.1.bind (fun k => alookup k themes)).getD (Chooser.new []), pk.2)

/-- The `line_color` field resolution of `pick_cfg` (lines 401-405): the
span-entry override when it parses, else the default line color re-parsed
through its `rgb(r,g,b)` display form (which only resolves via the named
dictionary), else black. -/
def resolve_line_color (override : String) (line_color_default : Color)
    (colors : List (String × Color)) : Color :=
  match color_from_value (Value.str override) colors with
  | .ok cl => cl
  | .error _ =>
    match color_from_value (Value.str line_color_default.toRgbString) colors with
    | .ok cl => cl
    | .error _ => ⟨0, 0, 0⟩

/-- `MetaConfig::pick_cfg`: resolve the raw document plus the time value into
a `SceneCfg`, consuming the random stream in the source's order: the
time-span entry selection, then the tiling and pattern draws, then (if no
theme resolved) the default-theme synthesis, then the final theme lookup
fallback.  The source's inline blocks are the named helper functions above.
`ord` is the run's ambient HashMap key-enumeration order consulted by
`default_themes` and `resolve_theme` (see their doc comments); it is an input
of the run, not a function of the seed. -/
def MetaConfig.pick_cfg (c : MetaConfig) (ord : List String → List String)
    (rng : StdRng) (time : Nat) : SceneCfg × StdRng :=
  let deviation :=
    match c.global with
    | Option.none => DEVIATION
    | some g => g.deviation.getD DEVIATION
  let distance :=
    match c.global with
    | Option.none => DISTANCE
    | some g =>
      match g.distance with
      | Option.none => g.weight.getD DISTANCE
      | some w => w
  let size :=
    match c.global with
    | Option.none => SIZE
    | some g => g.size.getD SIZE
  let width :=
    match c.global with
    | Option.none => WIDTH
    | some g => g.width.getD WIDTH
  let height :=
    match c.global with
    | Option.none => HEIGHT
    | some g => g.height.getD HEIGHT
  let colors := buildColors (match c.colors with | Option.none => [] | some cc => cc.list)
  let themes0 := buildThemes (match c.themes with | Option.none => [] | some ct => ct.list) colors
  let shapes := buildShapes (match c.shapes with | Option.none => [] | some cs => cs.list)
  let pts := choose_theme_shapes rng c.entry time
  let tpr := pick_tiling_pattern shapes pts.1.2.1 pts.2
  let tiling := tpr.1.1
  let pattern := tpr.1.2
  let quad := pick_pattern_params c.data pattern
  let thr := default_themes ord themes0 colors tpr.2
  let sz := pick_tiling_size c.data tiling size
  let lw :=
    match c.lines with
    | some lines => lines.get_settings tiling colors
    | Option.none => (LINE_WIDTH, LINE_COLOR)
  let theme_pick := resolve_theme ord thr.1 pts.1.1 thr.2
  let line_color := resolve_line_color pts.1.2.2 lw.2 colors
  (⟨theme_pick.1, distance, deviation, ⟨0, 0, width, height⟩, pattern, tiling,
    quad.1, quad.2.1, sz.1, sz.2, quad.2.2.1,
    lw.1, line_color, quad.2.2.2⟩, theme_pick.2)

/-! ### `tesselate.rs` (not in the sources)

Modelled from the spec: each generator accepts a frame, a characteristic
size (or point count for the scatter family) and a rotation angle, and
returns an ordered sequence of (anchor position, closed polygon path) pairs
covering the frame with a margin; output is deterministic for a fixed
frame/size/rotation/rng-state.  The exact geometry of each family is
irrelevant to the claims settled here, so all regular families share one
deterministic grid generator. -/

/-- A small closed square path anchored at a point (stand-in tile shape). -/
def squareTileAt (anchor : Pos) (size : ℚ) : Pos × Path :=
  (anchor,
   Path.new (((Data.new anchor).with_line_to ⟨anchor.x + size, anchor.y⟩).with_line_to
      ⟨anchor.x + size, anchor.y + size⟩ |>.with_line_to ⟨anchor.x, anchor.y + size⟩))

/-- Modelled from the spec: a deterministic grid of tiles of side `size`
covering the frame with one tile of margin on each side; the rotation enters
only as a deterministic offset. -/
def tileGrid (f : Frame) (size : ℚ) (rot : Nat) : List (Pos × Path) :=
  if size ≤ 0 then []
  else
    let nx := ((f.w : ℚ) / size).ceil.toNat + 2
    let ny := ((f.h : ℚ) / size).ceil.toNat + 2
    let shift : ℚ := size * ((rot % 360 : Nat) : ℚ) / 360
    (List.range ny).flatMap (fun j =>
      (List.range nx).map (fun i =>
        squareTileAt ⟨(f.x : ℚ) + (i : ℚ) * size + shift - size,
                      (f.y : ℚ) + (j : ℚ) * size + shift - size⟩ size))

/-- Modelled from the spec: `tile_hexagons`. -/
def tile_hexagons (f : Frame) (size : ℚ) (rot : Nat) : List (Pos × Path) := tileGrid f size rot

/-- Modelled from the spec: `tile_triangles`. -/
def tile_triangles (f : Frame) (size : ℚ) (rot : Nat) : List (Pos × Path) := tileGrid f size rot

/-- Modelled from the spec: `tile_hybrid_hexagons_triangles`. -/
def tile_hybrid_hexagons_triangles (f : Frame) (size : ℚ) (rot : Nat) : List (Pos × Path) :=
  tileGrid f size rot

/-- Modelled from the spec: `tile_hybrid_squares_triangles`. -/
def tile_hybrid_squares_triangles (f : Frame) (size : ℚ) (rot : Nat) : List (Pos × Path) :=
  tileGrid f size rot

/-- Modelled from the spec: `tile_rhombus`; the short diagonal only shapes the
tiles, which the claims never inspect, so it is accepted and ignored. -/
def tile_rhombus (f : Frame) (ldiag sdiag : ℚ) (rot : Nat) : List (Pos × Path) :=
  tileGrid f (ldiag + sdiag * 0) rot

/-- Modelled from the spec: the pentagonal tiler of sub-type `t` (1-6). -/
def pentagons_tiler (t : Nat) (f : Frame) (size : ℚ) (rot : Nat) : List (Pos × Path) :=
  tileGrid f (size + (t : ℚ) * 0) rot

/-- Modelled from the spec: `random_delaunay` places `nb` random points in the
frame (two unit draws each, via `Pos::random`) and derives one cell per point. -/
def random_delaunay_points (f : Frame) : Nat → StdRng → List (Pos × Path) × StdRng
  | 0, r => ([], r)
  | n + 1, r =>
    let pp := Pos.random f r
    let rest := random_delaunay_points f n pp.2
    (squareTileAt pp.1 5 :: rest.1, rest.2)

/-- Modelled from the spec: `random_delaunay`. -/
def random_delaunay (f : Frame) (rng : StdRng) (nb : Nat) : List (Pos × Path) × StdRng :=
  random_delaunay_points f nb rng

/-- `SceneCfg::make_tiling` (`cfg.rs` lines 80-116): dispatch on the tiling
family, drawing the rotation (and for Rhombus the diagonal factor, for
Pentagons sub-type 0 the sub-type) from the stream in source order. -/
def SceneCfg.make_tiling (cfg : SceneCfg) (rng : StdRng) : List (Pos × Path) × StdRng :=
  match cfg.tiling with
  | .Hexagons =>
    let p := rng.gen_range_nat 0 360
    (tile_hexagons cfg.frame cfg.size_tiling p.1, p.2)
  | .Triangles =>
    let p := rng.gen_range_nat 0 360
    (tile_triangles cfg.frame cfg.size_tiling p.1, p.2)
  | .HexagonsAndTriangles =>
    let p := rng.gen_range_nat 0 360
    (tile_hybrid_hexagons_triangles cfg.frame cfg.size_tiling p.1, p.2)
  | .SquaresAndTriangles =>
    let p := rng.gen_range_nat 0 360
    (tile_hybrid_squares_triangles cfg.frame cfg.size_tiling p.1, p.2)
  | .Rhombus =>
    let u := rng.genUnit
    let p := u.2.gen_range_nat 0 360
    (tile_rhombus cfg.frame cfg.size_tiling ((u.1 * (3/5) + 2/5) * cfg.size_tiling) p.1, p.2)
  | .Delaunay => random_delaunay cfg.frame rng cfg.nb_delaunay
  | .Pentagons n =>
    let np := if n = 0 then rng.gen_range_nat 1 7 else (n, rng)
    let p := np.2.gen_range_nat 0 360
    (pentagons_tiler np.1 cfg.frame cfg.size_tiling p.1, p.2)

/-! ### `scene.rs` and `paint.rs` (not in the sources)

Modelled from the spec (§4.4, §4.5): the compositor is built once per
generation; it draws one ColorItem per decorative region by weighted-sampling
the theme chooser and pairs it with the region.  Every region exposes only a
point-containment test; regions are modelled as discs.  Color resolution for
a queried position: first matching region's recipe, else a fresh
theme-chooser draw; the recipe is `meanpoint(random_shade, theme_color,
distance)` then `variate(deviation)` then the salt rule. -/

/-- Modelled from the spec: a decorative region with its containment test. -/
structure Region where
  center : Pos
  radius : ℚ

/-- Region containment (squared distances; no square root needed). -/
def Region.contains (reg : Region) (p : Pos) : Bool :=
  decide ((p - reg.center).dot_self ≤ reg.radius * reg.radius)

/-- Modelled from the spec: the scene compositor's pre-computed state. -/
structure Scene where
  cfg : SceneCfg
  items : List (Region × ColorItem)

/-- Modelled from the spec: build the list of (region, color recipe) pairs,
one per decorative element, consuming the stream in a fixed order. -/
def scene_items_build (cfg : SceneCfg) : Nat → StdRng → List (Region × ColorItem) × StdRng
  | 0, r => ([], r)
  | n + 1, r =>
    let ci := cfg.choose_color r
    let cx := ci.2.gen_range_nat cfg.frame.x (cfg.frame.x + cfg.frame.w + 1)
    let cy := cx.2.gen_range_nat cfg.frame.y (cfg.frame.y + cfg.frame.h + 1)
    let rr := cy.2.gen_range_nat 1 (cfg.frame.h + 2)
    let rest := scene_items_build cfg n rr.2
    ((⟨⟨(cx.1 : ℚ), (cy.1 : ℚ)⟩, (rr.1 : ℚ)⟩, ci.1) :: rest.1, rest.2)

/-- Modelled from the spec: `Scene::new`. -/
def Scene.new (cfg : SceneCfg) (rng : StdRng) : Scene × StdRng :=
  let p := scene_items_build cfg cfg.nb_pattern rng
  (⟨cfg, p.1⟩, p.2)

/-- Modelled from the spec: the salt rule — a chance to fully replace the
color with a salt entry's color jittered by that entry's variability; the
empty salt never changes the color.  (The likeliness weighting of the
missing source is abstracted to a uniform pick among the entries plus one
"keep" outcome.) -/
def saltApply (s : Salt) (c : Color) (rng : StdRng) : Color × StdRng :=
  match s.items with
  | [] => (c, rng)
  | items =>
    let p := rng.next
    match items.get? (p.1 % (items.length + 1)) with
    | some si => si.color.variate p.2 si.variability
    | Option.none => (c, p.2)

/-- Modelled from the spec: resolve one recipe into a concrete color:
`meanpoint(shade, theme, distance)`, then `variate(deviation)`, then salt. -/
def paintColor (ci : ColorItem) (rng : StdRng) : Color × StdRng :=
  let c0 := ci.shade.meanpoint ci.theme ci.distance
  let p := c0.variate rng ci.deviation
  saltApply ci.salt p.1 p.2

/-- Modelled from the spec: `Scene::color` — first matching region's recipe,
else a fallback theme draw with the same recipe. -/
def Scene.color (s : Scene) (p : Pos) (rng : StdRng) : Color × StdRng :=
  match s.items.find? (fun it => it.1.contains p) with
  | some it => paintColor it.2 rng
  | Option.none =>
    let ci := s.cfg.choose_color rng
    paintColor ci.1 ci.2

/-! ### `gen_image.rs` -/

/-- `generate_images` (`gen_image.rs` lines 21-49), up to the point where the
serialized vector document is handed to `Document::save`: seed the stream
from the id, resolve the configuration (the source always parses the empty
document; the model receives the parsed document as a parameter to cover
arbitrary fixed configurations), build the scene, tile, color each tile, and
serialize.  File output, rasterization and the external digest are outside
the model.  `ord` is this run's ambient HashMap key-enumeration order (see
`default_themes`): it is per-run random in the source, so each independent
run carries its own `ord`. -/
def generate_images_model (id : Nat) (cfg0 : MetaConfig)
    (ord : List String → List String) : String :=
  let rng0 := StdRng.seed_from_u64 id
  let pc := cfg0.pick_cfg ord rng0 id
  let cfg := pc.1
  let sc := Scene.new cfg pc.2
  let scene := sc.1
  let stroke := cfg.line_color
  let stroke_width := cfg.line_width
  let stroke_like_fill : Bool := decide (stroke_width < 1/10000)
  let tl := cfg.make_tiling sc.2
  let final := tl.1.foldl (fun (acc : Document × StdRng) pe =>
    let fc := scene.color pe.1 acc.2
    (acc.1.add (((pe.2.with_fill_color fc.1).with_stroke_color
        (if stroke_like_fill then fc.1 else stroke)).with_stroke_width
        (max stroke_width (1/10))), fc.2))
    (Document.new cfg.frame, tl.2)
  renderDocument final.1

/-- A patterns section overriding only `nb_free_circles` (to 0). -/
def zero_circles_patterns : ConfigPatterns :=
  { nb_free_circles := some 0
    nb_free_spirals := Option.none
    nb_free_stripes := Option.none
    nb_crossed_stripes := Option.none
    nb_parallel_stripes := Option.none
    nb_concentric_circles := Option.none
    nb_free_triangles := Option.none
    nb_parallel_waves := Option.none
    nb_parallel_sawteeth := Option.none
    var_parallel_stripes := Option.none
    var_crossed_stripes := Option.none
    width_spiral := Option.none
    width_stripe := Option.none
    width_wave := Option.none
    width_sawtooth := Option.none
    tightness_spiral := Option.none }

/-- A tilings section overriding only `nb_delaunay` (to 1). -/
def one_point_tilings : ConfigTilings :=
  { size_hex := Option.none
    size_tri := Option.none
    size_hex_and_tri := Option.none
    size_squ_and_tri := Option.none
    size_rho := Option.none
    size_pen := Option.none
    nb_delaunay := some 1 }

/-- A fixed configuration document with two named colors and no themes:
`{colors.A = "#FF0000", colors.B = "#00FF00", shapes.S = [["D",1],["FC",1]],
data.patterns.nb_free_circles = 0, data.tilings.nb_delaunay = 1,
entry = [{shapes = ["S"]}]}`.  The entry forces shape "S" (Delaunay tiling,
FreeCircles pattern); the overrides shrink the scene to one tile and zero
decorative regions.  Because it names two colors and no themes, the resolver
reaches the `colors.keys()` fallback of `default_themes`. -/
def two_color_document : MetaConfig :=
  { global := Option.none
    lines := Option.none
    colors := some ⟨[("A", Value.str "#FF0000"), ("B", Value.str "#00FF00")]⟩
    themes := Option.none
    shapes := some ⟨[("S", Value.array
      [Value.array [Value.str "D", Value.integer 1],
       Value.array [Value.str "FC", Value.integer 1]])]⟩
    data := some ⟨some zero_circles_patterns, some one_point_tilings⟩
    entry := some [⟨Option.none, Option.none, Option.none, some ["S"], Option.none⟩] }

/-! ## Theorems -/

/-! ### Helper lemmas -/

theorem getD_mem_of_lt {α : Type} (l : List α) (i : Nat) (d : α) (h : i < l.length) :
    l.getD i d ∈ l := by
  induction l generalizing i with
  | nil => simp at h
  | cons a t ih =>
    cases i with
    | zero => simp [List.getD]
    | succ n =>
      simp only [List.getD_cons_succ]
      exact List.mem_cons_of_mem _ (ih n (by simpa using h))

theorem Pos.add_x (p q : Pos) : (p + q).x = p.x + q.x := rfl

theorem Pos.add_y (p q : Pos) : (p + q).y = p.y + q.y := rfl

/-! ### C1: determinism of the generation pipeline -/

/-- On empty dictionaries `default_themes` takes the fully-random branch and
never consults the ambient key order. -/
theorem default_themes_nil (ord : List String → List String) (r : StdRng) :
    default_themes ord [] [] r =
      (ainsert "-default-" (Chooser.new
        [((⟨(Color.random r).1, Option.none, Option.none, Salt.none⟩ : ThemeItem),
          BASE_WEIGHT)]) [],
       (Color.random r).2) := rfl

/-- On a one-entry theme dictionary the ambient key order is irrelevant to
`resolve_theme`: every permutation of a singleton is the singleton. -/
theorem resolve_theme_perm (ord : List String → List String)
    (h : ∀ l : List String, (ord l).Perm l) (k : String) (c : Chooser ThemeItem)
    (name : String) (r : StdRng) :
    resolve_theme ord [(k, c)] name r = resolve_theme (fun l => l) [(k, c)] name r := by
  have hk : ord [k] = [k] := List.perm_singleton.mp (h [k])
  unfold resolve_theme
  cases halk : alookup name [(k, c)] with
  | some t => rfl
  | none => simp [hk]

/-- Resolving the empty document does not depend on the run's HashMap key
order: the color dictionary is empty and the synthesized theme dictionary has
a single key, so both `keys()` sites see at most one key. -/
theorem pick_cfg_default_ord (ord : List String → List String)
    (h : ∀ l : List String, (ord l).Perm l) (rng : StdRng) (time : Nat) :
    MetaConfig.default.pick_cfg ord rng time =
      MetaConfig.default.pick_cfg (fun l => l) rng time := by
  simp only [MetaConfig.pick_cfg, MetaConfig.default, buildColors, buildThemes, buildShapes,
    List.foldl, choose_theme_shapes, default_themes_nil, ainsert]
  rw [resolve_theme_perm ord h]

/-- C1 amended: for any fixed seed and the empty configuration document (the
document `generate_images` itself always uses), two independent runs of the
generation pipeline produce byte-identical serialized vector output, even
though each run's std HashMap key-enumeration order is an arbitrary
permutation of the stored keys: restricted to the empty document the
serialized Document is a deterministic function of the seed.  (For non-empty
documents this fails — see the counterexample.) -/
theorem generateImages_deterministic (id : Nat) (ord1 ord2 : List String → List String)
    (h1 : ∀ l : List String, (ord1 l).Perm l) (h2 : ∀ l : List String, (ord2 l).Perm l) :
    generate_images_model id MetaConfig.default ord1 =
      generate_images_model id MetaConfig.default ord2 := by
  simp only [generate_images_model]
  rw [pick_cfg_default_ord ord1 h1, pick_cfg_default_ord ord2 h2]

/-- Witness for C1 at seed 1430 with the empty configuration document and two
(identity) key orders. -/
theorem generateImages_deterministic_w :
    generate_images_model 1430 MetaConfig.default (fun l => l) =
      generate_images_model 1430 MetaConfig.default (fun l => l) :=
  generateImages_deterministic 1430 (fun l => l) (fun l => l)
    (fun l => List.Perm.refl l) (fun l => List.Perm.refl l)

set_option maxRecDepth 40000 in
/-- C1 counterexample: the serialized output is *not* a deterministic function
of the seed for every fixed document.  For the fixed document
`two_color_document` (two named colors, no themes) and fixed seed 7, the
resolver's `colors.keys().collect::<Vec<_>>().choose(rng)` fallback
(deserializer.rs:334) enumerates a std HashMap whose order is randomized per
run; two independent runs whose ambient enumerations are the identity and the
reversal — both permutations of the stored keys, as the first conjunct
records — pick different theme colors from the same seeded stream and emit
different bytes. -/
theorem generateImages_hashmap_order_cex :
    (List.reverse ["A", "B"] : List String).Perm ["A", "B"] ∧
    generate_images_model 7 two_color_document (fun l => l) ≠
      generate_images_model 7 two_color_document List.reverse := by
  constructor
  · decide
  · with_unfolding_all decide

/-! ### C2: the endpoints of `meanpoint` -/

/-- C2 counterexample: the claim says `meanpoint(s, t, 0)` is the pure random
shade `s`; on the code it is the pure theme color `t`.  At `s = (10,0,0)`,
`t = (200,0,0)`, `d = 0` the result is `(200,0,0) = t ≠ s`. -/
theorem meanpoint_distance_zero_cex :
    Color.meanpoint ⟨10, 0, 0⟩ ⟨200, 0, 0⟩ 0 = ⟨200, 0, 0⟩ ∧
    (⟨200, 0, 0⟩ : Color) ≠ ⟨10, 0, 0⟩ := by
  constructor
  · decide
  · decide

/-- C2 amended: `meanpoint(s, t, d)` weights the random shade by `d` and the
theme color by `100 - d`, so `d = 100` yields the pure random shade `s` and
`d = 0` yields the pure theme color `t` (each channel a weighted average of
the two inputs). -/
theorem meanpoint_endpoints (s t : Color) :
    Color.meanpoint s t 100 = s ∧ Color.meanpoint s t 0 = t := by
  obtain ⟨r1, g1, b1⟩ := s
  obtain ⟨r2, g2, b2⟩ := t
  constructor <;> simp [Color.meanpoint]

/-! ### C3: displayed colors stay in range -/

/-- C3: every emitted (displayed) color's three channels are within [0, 255]
after clamping, for arbitrary jitter and blend inputs — the channels are
unsigned throughout, `variate` maps any channel that would become negative to
0 (`varChannel`), and the display-time `validate` caps each channel at 255. -/
theorem displayed_color_in_range (c : Color) (r : StdRng) (a : Nat) (ch : Nat) (d : Int) :
    (((c.variate r a).1.validate).r ≤ 255 ∧ ((c.variate r a).1.validate).g ≤ 255 ∧
      ((c.variate r a).1.validate).b ≤ 255) ∧
    ((c.validate).r ≤ 255 ∧ (c.validate).g ≤ 255 ∧ (c.validate).b ≤ 255) ∧
    ((ch : Int) + d < 0 → varChannel ch d = 0) := by
  refine ⟨⟨?_, ?_, ?_⟩, ⟨?_, ?_, ?_⟩, ?_⟩
  · exact Nat.min_le_right _ _
  · exact Nat.min_le_right _ _
  · exact Nat.min_le_right _ _
  · exact Nat.min_le_right _ _
  · exact Nat.min_le_right _ _
  · exact Nat.min_le_right _ _
  · intro h
    unfold varChannel
    exact Int.toNat_of_nonpos (le_of_lt h)

/-- Witness for C3: a negative intermediate channel value is clamped to 0. -/
theorem displayed_color_in_range_w : varChannel 1 (-4) = 0 :=
  (displayed_color_in_range ⟨300, 1, 2⟩ ⟨0, 0⟩ 5 1 (-4)).2.2 (by decide)

/-! ### C10: the unstated precondition of `meanpoint` -/

/-- C10: `meanpoint(shade, theme, distance)` is only well-defined under the
unstated precondition `distance ≤ 100`: the `100 - distance` unsigned
subtraction does not underflow exactly when `distance ≤ 100` (in which case
the checked computation agrees with `meanpoint`), and `choose_color` passes a
per-item distance override through from the configuration with no range
check. -/
theorem meanpoint_underflow_spec (s t : Color) (d : Nat) (cfg : SceneCfg) (r : StdRng)
    (hcfg : cfg.theme = Chooser.new [(⟨t, Option.none, some d, Salt.none⟩, 1)]) :
    ((s.meanpointChecked t d).isSome ↔ d ≤ 100) ∧
    (d ≤ 100 → s.meanpointChecked t d = some (s.meanpoint t d)) ∧
    (cfg.choose_color r).1.distance = d := by
  refine ⟨?_, ?_, ?_⟩
  · unfold Color.meanpointChecked checkedSub
    by_cases h : d ≤ 100
    · simp [h]
    · simp [h]
  · intro h
    unfold Color.meanpointChecked checkedSub Color.meanpoint
    simp [h]
  · simp [SceneCfg.choose_color, hcfg, Chooser.choose, Chooser.total, Chooser.new,
      pickWeighted, Nat.mod_one]

/-- Witness for C10 at `distance = 150`: the checked subtraction underflows,
and a concrete scene configuration passes 150 through `choose_color`. -/
theorem meanpoint_underflow_spec_w :
    ((Color.meanpointChecked ⟨1, 2, 3⟩ ⟨4, 5, 6⟩ 150).isSome ↔ (150 : Nat) ≤ 100) ∧
    ((150 : Nat) ≤ 100 →
      Color.meanpointChecked ⟨1, 2, 3⟩ ⟨4, 5, 6⟩ 150 =
        some (Color.meanpoint ⟨1, 2, 3⟩ ⟨4, 5, 6⟩ 150)) ∧
    ((SceneCfg.mk (Chooser.new [(⟨⟨4, 5, 6⟩, Option.none, some 150, Salt.none⟩, 1)])
        40 20 ⟨0, 0, 1000, 600⟩ .FreeCircles .Hexagons 10 0 15 0 (3/10) 1 ⟨0, 0, 0⟩
        (1/2)).choose_color ⟨0, 0⟩).1.distance = 150 :=
  meanpoint_underflow_spec ⟨1, 2, 3⟩ ⟨4, 5, 6⟩ 150 _ ⟨0, 0⟩ rfl

/-! ### C7: the concrete shape-document scenario -/

/-- C7: resolving the configuration document `{shapes.S = [["H", 3], ["FC", 1]]}`
yields for shape "S" a tiling chooser containing only the Hexagons tiling with
weight 3 and a pattern chooser containing only the FreeCircles pattern with
weight 1 (the dictionary stores the `(patterns, tilings)` pair). -/
theorem shapes_scenario_ok :
    alookup "S" (buildShapes
      [("S", Value.array [Value.array [Value.str "H", Value.integer 3],
                          Value.array [Value.str "FC", Value.integer 1]])]) =
    some (Chooser.new [(Pattern.FreeCircles, 1)], Chooser.new [(Tiling.Hexagons, 3)]) := by
  decide

/-! ### C6: the concrete color/theme-document scenario -/

/-- C6 counterexample: in the document `{colors.A = "#FF0000", themes.T = "A x5"}`
the theme value is a bare string; `theme_from_value` rejects every non-array
value, so theme "T" is absent from the resolved named-theme dictionary,
contrary to the claim that it resolves to a single-entry chooser. -/
theorem theme_string_form_cex :
    alookup "T" (buildThemes [("T", Value.str "A x5")]
      (buildColors [("A", Value.str "#FF0000")])) = Option.none := by
  decide

/-- C6 amended: with the theme written as an array of theme items,
`{colors.A = "#FF0000", themes.T = ["A x5"]}`, the named-theme dictionary maps
"T" to a single-entry chooser containing color (255, 0, 0) with weight 5;
the bare-string form is rejected by `theme_from_value` and leaves "T" absent. -/
theorem theme_array_form_ok :
    alookup "T" (buildThemes [("T", Value.array [Value.str "A x5"])]
      (buildColors [("A", Value.str "#FF0000")])) =
    some (Chooser.new [(⟨⟨255, 0, 0⟩, Option.none, Option.none, Salt.none⟩, 5)]) := by
  decide

/-! ### C9: the save-extension dispatch -/

/-- C9 counterexample: the claim says `Document::save` accepts exactly paths
ending in `.svg` or `.png`; the destination `"a.svg.tmp"` ends in neither,
yet the code selects the vector branch and attempts the write. -/
theorem save_branch_svg_tmp_cex :
    rustEndsWith "a.svg.tmp" ".svg" = false ∧ rustEndsWith "a.svg.tmp" ".png" = false ∧
    save_branch "a.svg.tmp" = SaveBranch.svg := by
  refine ⟨by decide, by decide, by decide⟩

/-- C9 amended: `Document::save` rejects a destination with an error (writing
nothing, since the unsupported branch returns before any file is created)
exactly when it ends in none of `.svg`, `.svg.tmp`, `.png`, `.png.tmp`; it
accepts exactly paths ending in one of those four suffixes. -/
theorem save_branch_spec (dest : String) :
    save_branch dest ≠ SaveBranch.unsupported ↔
      (rustEndsWith dest ".svg" = true ∨ rustEndsWith dest ".svg.tmp" = true ∨
       rustEndsWith dest ".png" = true ∨ rustEndsWith dest ".png.tmp" = true) := by
  unfold save_branch
  cases h1 : rustEndsWith dest ".svg" <;> cases h2 : rustEndsWith dest ".svg.tmp" <;>
    cases h3 : rustEndsWith dest ".png" <;> cases h4 : rustEndsWith dest ".png.tmp" <;>
    simp

/-! ### C8: rounded equality and hashing of positions -/

/-- C8 counterexample: the positions (0.004, 0) and (0.006, 0) are within the
1/100 tolerance of each other in both coordinates, yet they are not equal,
because their coordinates round to different hundredths (0 vs 1). -/
theorem pos_eq_tolerance_cex :
    |(Pos.mk (1/250) 0).x - (Pos.mk (3/500) 0).x| ≤ 1/100 ∧
    |(Pos.mk (1/250) 0).y - (Pos.mk (3/500) 0).y| ≤ 1/100 ∧
    Pos.peq (Pos.mk (1/250) 0) (Pos.mk (3/500) 0) = false := by
  have h1 : rustRound ((1/250 : ℚ) * 100) = 0 := by
    rw [rustRound, if_pos (by norm_num)]
    rw [show (1/250 : ℚ) * 100 + 1/2 = 9/10 by norm_num]
    rw [Int.floor_eq_iff]
    norm_num
  have h2 : rustRound ((3/500 : ℚ) * 100) = 1 := by
    rw [rustRound, if_pos (by norm_num)]
    rw [show (3/500 : ℚ) * 100 + 1/2 = 11/10 by norm_num]
    rw [Int.floor_eq_iff]
    norm_num
  refine ⟨by rw [abs_le]; constructor <;> norm_num, by rw [abs_le]; constructor <;> norm_num, ?_⟩
  show ((rustRound ((1/250 : ℚ) * 100) == rustRound ((3/500 : ℚ) * 100)) &&
    (rustRound ((0 : ℚ) * 100) == rustRound ((0 : ℚ) * 100))) = false
  rw [h1, h2]
  simp

/-- C8 amended: position equality holds exactly when the two positions'
coordinates round to the same nearest 1/100 of a unit (positions within a
half-hundredth of a grid point collapse together, but positions merely within
1/100 of each other may differ), and equal positions always have equal
hashes, the hash being computed from the rounded pair. -/
theorem pos_eq_round_spec (p q : Pos) (h : Int × Int → Nat) :
    (Pos.peq p q = true ↔ p.round = q.round) ∧
    (Pos.peq p q = true → Pos.hashWith h p = Pos.hashWith h q) := by
  have key : Pos.peq p q = true ↔ p.round = q.round := by
    simp [Pos.peq, Prod.ext_iff]
  refine ⟨key, fun hp => ?_⟩
  unfold Pos.hashWith
  rw [key.mp hp]

/-- Witness for C8: applied at a concrete pair of equal positions, equality
follows from equal roundings and the hashes agree. -/
theorem pos_eq_round_spec_w :
    Pos.hashWith (fun _ => 0) (Pos.mk 0 0) = Pos.hashWith (fun _ => 0) (Pos.mk 0 0) :=
  (pos_eq_round_spec (Pos.mk 0 0) (Pos.mk 0 0) (fun _ => 0)).2
    ((pos_eq_round_spec (Pos.mk 0 0) (Pos.mk 0 0) (fun _ => 0)).1.mpr rfl)

/-! ### C5: resolving the empty configuration -/

/-- C5: resolving an empty configuration document (any random stream, in
particular the one seeded from 1430, any time value, and any ambient HashMap
key order) yields a `SceneCfg` with the hard-coded constants deviation = 20,
distance = 40 and frame `{x: 0, y: 0, w: 1000, h: 600}`, with the tiling
family drawn from the seven known tilings and the pattern family from the
nine known patterns. -/
theorem pick_cfg_empty_defaults (ord : List String → List String) (rng : StdRng) (time : Nat) :
    (MetaConfig.default.pick_cfg ord rng time).1.deviation = 20 ∧
    (MetaConfig.default.pick_cfg ord rng time).1.distance = 40 ∧
    (MetaConfig.default.pick_cfg ord rng time).1.frame = ⟨0, 0, 1000, 600⟩ ∧
    (MetaConfig.default.pick_cfg ord rng time).1.tiling ∈ tilingFamilies ∧
    (MetaConfig.default.pick_cfg ord rng time).1.pattern ∈ patternFamilies := by
  have ht : (MetaConfig.default.pick_cfg ord rng time).1.tiling = (Tiling.choose rng).1 := by
    simp only [MetaConfig.pick_cfg, MetaConfig.default, choose_theme_shapes, buildShapes,
      pick_tiling_pattern, alookup, List.foldl, List.find?, Option.map]
  have hp : (MetaConfig.default.pick_cfg ord rng time).1.pattern =
      (Pattern.choose (Tiling.choose rng).2).1 := by
    simp only [MetaConfig.pick_cfg, MetaConfig.default, choose_theme_shapes, buildShapes,
      pick_tiling_pattern, alookup, List.foldl, List.find?, Option.map]
  refine ⟨rfl, rfl, rfl, ?_, ?_⟩
  · rw [ht]
    simp only [Tiling.choose]
    exact getD_mem_of_lt _ _ _ (Nat.mod_lt _ (by decide))
  · rw [hp]
    simp only [Pattern.choose]
    exact getD_mem_of_lt _ _ _ (Nat.mod_lt _ (by decide))

/-! ### C4: the degenerate-intersection panic condition -/

/-- C4: `Pos::intersect` aborts the generation (panics with "Malformed
intersection", embedded as `Except.error`) exactly when the determinant of
the two direction vectors has absolute value below 0.01; under the
precondition that the determinant's absolute value is at least 0.01 it
returns, without panicking, the intersection point — the returned point lies
on both input lines. -/
theorem intersect_spec (p1 d1 p2 d2 : Pos) :
    (Pos.intersect p1 d1 p2 d2 = Except.error "Malformed intersection" ↔
      |d1.x * d2.y - d1.y * d2.x| < 1/100) ∧
    (1/100 ≤ |d1.x * d2.y - d1.y * d2.x| →
      Pos.intersect p1 d1 p2 d2 = Except.ok (Pos.intersectPoint p1 d1 p2 d2) ∧
      onLine (Pos.intersectPoint p1 d1 p2 d2) p1 d1 ∧
      onLine (Pos.intersectPoint p1 d1 p2 d2) p2 d2) := by
  obtain ⟨a1, a2⟩ := p1
  obtain ⟨u1, u2⟩ := d1
  obtain ⟨b1, b2⟩ := p2
  obtain ⟨v1, v2⟩ := d2
  have hint : Pos.intersect ⟨a1, a2⟩ ⟨u1, u2⟩ ⟨b1, b2⟩ ⟨v1, v2⟩ =
      if |u1 * v2 - u2 * v1| < 1/100 then Except.error "Malformed intersection"
      else Except.ok (Pos.intersectPoint ⟨a1, a2⟩ ⟨u1, u2⟩ ⟨b1, b2⟩ ⟨v1, v2⟩) := by
    simp only [Pos.intersect, Pos.add_x, Pos.add_y]
    have hcond : (a1 - (a1 + u1)) * (b2 - (b2 + v2)) - (b1 - (b1 + v1)) * (a2 - (a2 + u2)) =
        u1 * v2 - u2 * v1 := by ring
    simp only [hcond]
  constructor
  · rw [hint]
    split_ifs with h
    · exact iff_of_true rfl h
    · exact iff_of_false (by simp) h
  · intro hle
    have h : ¬ |u1 * v2 - u2 * v1| < 1/100 := not_lt.mpr hle
    have hD : u1 * v2 - u2 * v1 ≠ 0 := by
      intro h0
      rw [h0] at h
      norm_num at h
    have hS : -(u2 * v1) + u1 * v2 ≠ 0 := by
      intro h0
      apply hD
      linear_combination h0
    have hc : (-(u2 * v1) + u1 * v2) * (-(u2 * v1) + u1 * v2)⁻¹ = 1 := mul_inv_cancel₀ hS
    refine ⟨by rw [hint, if_neg h], ?_, ?_⟩
    · simp only [onLine, Pos.intersectPoint, Pos.add_x, Pos.add_y]
      linear_combination (a1 * u2 - a2 * u1) * hc
    · simp only [onLine, Pos.intersectPoint, Pos.add_x, Pos.add_y]
      linear_combination (b1 * v2 - b2 * v1) * hc

/-- Witness for C4: two perpendicular lines (determinant 1) are accepted and
the returned point lies on both. -/
theorem intersect_spec_w :
    Pos.intersect ⟨0, 0⟩ ⟨1, 0⟩ ⟨0, 1⟩ ⟨0, 1⟩ =
      Except.ok (Pos.intersectPoint ⟨0, 0⟩ ⟨1, 0⟩ ⟨0, 1⟩ ⟨0, 1⟩) ∧
    onLine (Pos.intersectPoint ⟨0, 0⟩ ⟨1, 0⟩ ⟨0, 1⟩ ⟨0, 1⟩) ⟨0, 0⟩ ⟨1, 0⟩ ∧
    onLine (Pos.intersectPoint ⟨0, 0⟩ ⟨1, 0⟩ ⟨0, 1⟩ ⟨0, 1⟩) ⟨0, 1⟩ ⟨0, 1⟩ :=
  (intersect_spec ⟨0, 0⟩ ⟨1, 0⟩ ⟨0, 1⟩ ⟨0, 1⟩).2 (by norm_num)

end Backgen
